import Mathlib

/-!
# Verification of the smoke-test fixture framework (`base.py`)

Shallow embedding of the fixture lifecycle hierarchy of `src/base.py`:

* the layered `setUp`/`tearDown` chains of `SmokeTest`, `UserSmokeTest`
  and `ProjectSmokeTest`, executed under the host test-runner semantics
  (`unittest.TestCase.run`: `tearDown` runs only when `setUp` returned
  normally; an exception inside `setUp` or inside a `tearDown` step
  propagates and skips the rest of that method);
* the navigation router `ProjectSmokeTest.goto` with its dict-of-lambdas
  path table;
* the activity-log extractor `ProjectSmokeTest.get_log`, including a
  character-level model of `datetime.strptime` for the fixed format
  `"%m/%d/%y %I:%M %p"`;
* the element-wait resolver `SmokeTest.get_element`
  (`WebDriverWait(driver, timeout=10).until(...)`).
-/

namespace SmokeBase

/-! ## Fixture lifecycle

`Action` is the alphabet of observable primitive steps performed by the
fixture code: the `util.*` collaborator calls, the two driver shutdown
operations (`quit` is `WebDriver.quit()`, `close` is `WebDriver.close()`;
the source deliberately uses only `quit`), and `body`, the test method
itself. -/

inductive Action where
  | acquire        -- util.launch_driver (SmokeTest.setUp)
  | createUser     -- util.create_user  (UserSmokeTest.setUp)
  | login          -- util.login        (UserSmokeTest.setUp)
  | createProject  -- util.create_project (ProjectSmokeTest.setUp)
  | gotoProject    -- util.goto_project   (ProjectSmokeTest.setUp)
  | deleteProject  -- util.delete_project (ProjectSmokeTest.tearDown)
  | logout         -- util.logout         (UserSmokeTest.tearDown)
  | quit           -- self.driver.quit()  (SmokeTest.tearDown)
  | close          -- WebDriver.close(): present in the API, never called
  | body           -- the test method
deriving DecidableEq, Repr

/-- The three fixture layers of `base.py`. -/
inductive Layer where
  | smoke    -- SmokeTest
  | user     -- UserSmokeTest
  | project  -- ProjectSmokeTest
deriving DecidableEq, Repr

/-- `SmokeTest.setUp`: launch the driver. -/
def smokeSetup : List Action := [.acquire]

/-- `UserSmokeTest.setUp`: parent chain first, then create user + login. -/
def userSetup : List Action := smokeSetup ++ [.createUser, .login]

/-- `ProjectSmokeTest.setUp`: parent chain first, then create the test
project and browse to its page. -/
def projectSetup : List Action := userSetup ++ [.createProject, .gotoProject]

/-- The sequence of primitive steps run by each layer's `setUp`,
following the `super().setUp()` chaining of the source. -/
def setupActions : Layer → List Action
  | .smoke => smokeSetup
  | .user => userSetup
  | .project => projectSetup

/-- `SmokeTest.tearDown`: quit the driver (`quit`, not `close`). -/
def smokeTearDown : List Action := [.quit]

/-- `UserSmokeTest.tearDown`: log out, then the parent chain. -/
def userTearDown : List Action := [.logout] ++ smokeTearDown

/-- `ProjectSmokeTest.tearDown`: delete the project, then the parent
chain. -/
def projectTearDown : List Action := [.deleteProject] ++ userTearDown

/-- The sequence of primitive steps run by each layer's `tearDown`,
following the source: each subclass performs its own inverse step first,
then calls `super().tearDown()`. -/
def tearDownActions : Layer → List Action
  | .smoke => smokeTearDown
  | .user => userTearDown
  | .project => projectTearDown

/-- Run a straight-line sequence of steps under a failure oracle `ok`
(`ok a = true` means the call `a` returns normally, `false` means it
raises). Returns the steps that completed, and whether the whole
sequence returned normally. A raising step completes nothing and the
exception propagates: the rest of the method is skipped. -/
def runSeq (ok : Action → Bool) : List Action → List Action × Bool
  | [] => ([], true)
  | a :: rest =>
    if ok a then
      let r := runSeq ok rest
      (a :: r.1, r.2)
    else ([], false)

/-- One test execution of a fixture layer under the host runner
semantics (`unittest.TestCase.run`): run `setUp`; if it raised, report
the error and return — neither the test method nor `tearDown` runs; if
`setUp` returned normally, run the test method (its own exception is
recorded but does not stop the runner) and then run `tearDown`.
The result is the trace of completed primitive steps, with `body`
recording that the test method was entered. -/
def runTest (ok : Action → Bool) (l : Layer) : List Action :=
  if (runSeq ok (setupActions l)).2 then
    (runSeq ok (setupActions l)).1 ++ [Action.body]
      ++ (runSeq ok (tearDownActions l)).1
  else (runSeq ok (setupActions l)).1

/-- Resource stages of the fixture state machine: S1 session,
S2 authenticated user, S3 provisioned project. -/
inductive Stage where
  | session
  | user
  | project
deriving DecidableEq, Repr

/-- The setup step that begins acquiring each stage's resource. -/
def setupStageEntry : Action → Option Stage
  | .acquire => some .session
  | .createUser => some .user
  | .createProject => some .project
  | _ => none

/-- The teardown step that releases each stage's resource. -/
def teardownStage : Action → Option Stage
  | .quit => some .session
  | .logout => some .user
  | .deleteProject => some .project
  | _ => none

lemma mem_runSeq {ok : Action → Bool} {as : List Action} {a : Action}
    (h : a ∈ (runSeq ok as).1) : a ∈ as := by
  induction as with
  | nil => simp [runSeq] at h
  | cons b rest ih =>
    by_cases hb : ok b
    · simp only [runSeq, hb, if_pos, List.mem_cons] at h
      rcases h with h | h
      · exact h ▸ List.mem_cons_self b rest
      · exact List.mem_cons_of_mem b (ih h)
    · simp [runSeq, hb] at h

lemma runSeq_all_ok {ok : Action → Bool} (h : ∀ a, ok a = true) :
    ∀ as : List Action, runSeq ok as = (as, true) := by
  intro as
  induction as with
  | nil => rfl
  | cons b rest ih => simp [runSeq, h b, ih]

/-! ## Navigation router (`ProjectSmokeTest.goto`)

`goto(self, page, *args)` builds a dict of lambdas keyed by page name,
looks the key up (a missing key raises `KeyError(page)` before any
navigation), calls the selected lambda (the `"file"` lambda evaluates
`args[0]`, raising `IndexError` when `args` is empty), and only then
issues `self.driver.get(url)`.

Python string operations are modelled character-wise:
`s[:-1]` is `sliceDropLast`, `'/'.join(xs)` is `pyJoin "/" xs`. -/

/-- Python `s[:-1]`: the string without its final character (the empty
string stays empty). -/
def sliceDropLast (s : String) : String := String.mk s.data.dropLast

/-- Python `sep.join(xs)`. -/
def pyJoin (sep : String) : List String → String
  | [] => ""
  | [s] => s
  | s :: s2 :: rest => s ++ sep ++ pyJoin sep (s2 :: rest)

/-- The exceptions `goto` can raise before navigating. -/
inductive PyError where
  | keyError (key : String)   -- build_path[page] with an unknown page
  | indexError                -- args[0] on an empty args tuple
deriving DecidableEq, Repr

/-- The attributes of the test instance that `goto` reads:
`self.project_url` (set by `create_project` during setUp, ends in a
slash in the live system) and `self.site_root` (configuration). -/
structure GotoCtx where
  project_url : String
  site_root : String
deriving DecidableEq, Repr

/-- The browser session as `goto` affects it: the sequence of addresses
passed to `driver.get`, most recent last. -/
structure Session where
  history : List String
deriving DecidableEq, Repr

/-- `self.driver.get(url)`: navigate the session to `url`. -/
def driver_get (s : Session) (url : String) : Session :=
  ⟨s.history ++ [url]⟩

/-- The dict-of-lambdas path table of `goto`, with the lookup and the
call merged: an unregistered `page` is `KeyError(page)`; the `"file"`
rule with no positional argument is `IndexError`; otherwise the built
address. Each rule uses exactly the strings the source builds:
`project_url` itself, `'/'.join([project_url[:-1], 'files'])`,
`'/'.join([project_url[:-1], 'files', args[0]])`, and
`'/'.join([site_root, 'dashboard'])`. -/
def build_path (c : GotoCtx) (page : String) (args : List String) :
    Except PyError String :=
  if page = "dashboard" then .ok c.project_url
  else if page = "files" then
    .ok (pyJoin "/" [sliceDropLast c.project_url, "files"])
  else if page = "file" then
    match args with
    | [] => .error .indexError
    | a :: _ => .ok (pyJoin "/" [sliceDropLast c.project_url, "files", a])
  else if page = "user-dashboard" then
    .ok (pyJoin "/" [c.site_root, "dashboard"])
  else .error (.keyError page)

/-- `ProjectSmokeTest.goto`: resolve the page key and navigate. On an
exception the session is returned unchanged together with the error;
on success the session has navigated to the built address. -/
def goto (c : GotoCtx) (s : Session) (page : String) (args : List String) :
    Session × Option PyError :=
  match build_path c page args with
  | .ok url => (driver_get s url, none)
  | .error e => (s, some e)

lemma strData_append (a b : String) : (a ++ b).data = a.data ++ b.data := rfl

lemma strMk_data (a : String) : String.mk a.data = a := rfl

lemma sliceDropLast_append_slash (base : String) :
    sliceDropLast (base ++ "/") = base := by
  unfold sliceDropLast
  rw [strData_append]
  show String.mk (base.data ++ ['/']).dropLast = base
  rw [List.dropLast_concat, strMk_data]

/-! ## `datetime.strptime` for the fixed format `"%m/%d/%y %I:%M %p"`

CPython's `_strptime` compiles the format into a regex
(`IGNORECASE`, matched at the start of the string, and the whole string
must be consumed): `%m` and `%I` are `1[0-2]|0[1-9]|[1-9]`, `%d` is
`3[01]|[12]\d|0[1-9]|[1-9]`, `%y` is `\d\d`, `%M` is `[0-5]\d|\d`,
`%p` is `AM|PM` (case-insensitive), and a whitespace run in the format
matches one or more whitespace characters. `%y` maps `00-68` to
`2000-2068` and `69-99` to `1969-1999`; `%I` with `%p` gives the
24-hour clock (`12 AM` is hour `0`, `12 PM` is hour `12`).
`datetime.strptime` finally constructs a `datetime`, which rejects a
day beyond the month's length. Any mismatch raises `ValueError`. -/

def digitVal (c : Char) : Nat := c.toNat - 48

/-- The regex alternation `1[0-2]|0[1-9]|[1-9]` (used for `%m` and
`%I`), tried left to right on the head of the input; returns the value
and the rest. -/
def matchOneTo12 : List Char → Option (Nat × List Char)
  | '1' :: c :: rest =>
    if c = '0' ∨ c = '1' ∨ c = '2' then some (10 + digitVal c, rest)
    else some (1, c :: rest)
  | ['1'] => some (1, [])
  | '0' :: c :: rest =>
    if '1' ≤ c ∧ c ≤ '9' then some (digitVal c, rest) else none
  | c :: rest =>
    if '1' ≤ c ∧ c ≤ '9' then some (digitVal c, rest) else none
  | [] => none

/-- The regex alternation `3[01]|[12]\d|0[1-9]|[1-9]` (used for `%d`). -/
def matchDay31 : List Char → Option (Nat × List Char)
  | '3' :: c :: rest =>
    if c = '0' ∨ c = '1' then some (30 + digitVal c, rest)
    else some (3, c :: rest)
  | ['3'] => some (3, [])
  | '1' :: c :: rest =>
    if c.isDigit then some (10 + digitVal c, rest) else some (1, c :: rest)
  | ['1'] => some (1, [])
  | '2' :: c :: rest =>
    if c.isDigit then some (20 + digitVal c, rest) else some (2, c :: rest)
  | ['2'] => some (2, [])
  | '0' :: c :: rest =>
    if '1' ≤ c ∧ c ≤ '9' then some (digitVal c, rest) else none
  | c :: rest =>
    if '4' ≤ c ∧ c ≤ '9' then some (digitVal c, rest) else none
  | [] => none

/-- The regex `\d\d` (used for `%y`): exactly two digits. -/
def matchYear2 : List Char → Option (Nat × List Char)
  | c :: d :: rest =>
    if c.isDigit ∧ d.isDigit then some (10 * digitVal c + digitVal d, rest)
    else none
  | _ => none

/-- The regex alternation `[0-5]\d|\d` (used for `%M`). -/
def matchMin59 : List Char → Option (Nat × List Char)
  | c :: d :: rest =>
    if ('0' ≤ c ∧ c ≤ '5') ∧ d.isDigit then
      some (10 * digitVal c + digitVal d, rest)
    else if c.isDigit then some (digitVal c, d :: rest)
    else none
  | [c] => if c.isDigit then some (digitVal c, []) else none
  | [] => none

/-- A literal character of the format. -/
def matchLit (lit : Char) : List Char → Option (List Char)
  | c :: rest => if c = lit then some rest else none
  | [] => none

/-- Python's `\s` on ASCII input. -/
def pyIsSpace (c : Char) : Bool :=
  c = ' ' ∨ c = '\t' ∨ c = '\n' ∨ c = '\r' ∨ c = '\x0b' ∨ c = '\x0c'

/-- `\s+`, which a whitespace run in the format becomes: at least one
whitespace character, consumed greedily. -/
def matchSpaces1 : List Char → Option (List Char)
  | c :: rest =>
    if pyIsSpace c then some (rest.dropWhile pyIsSpace) else none
  | [] => none

/-- `AM|PM` under `IGNORECASE`; `true` means PM. -/
def matchAmPm : List Char → Option (Bool × List Char)
  | a :: m :: rest =>
    if (a = 'A' ∨ a = 'a') ∧ (m = 'M' ∨ m = 'm') then some (false, rest)
    else if (a = 'P' ∨ a = 'p') ∧ (m = 'M' ∨ m = 'm') then some (true, rest)
    else none
  | _ => none

/-- The value `datetime.strptime` produces (seconds default to 0 under
this format). -/
structure PyDatetime where
  year : Nat
  month : Nat
  day : Nat
  hour : Nat
  minute : Nat
  second : Nat
deriving DecidableEq, Repr

/-- `%y` pivot: `00-68` → 2000s, `69-99` → 1900s. -/
def yearFrom2 (y : Nat) : Nat := if y ≤ 68 then 2000 + y else 1900 + y

/-- `%I` + `%p` to the 24-hour clock. -/
def hourFrom12 (h : Nat) (pm : Bool) : Nat :=
  if pm then (if h = 12 then 12 else h + 12)
  else (if h = 12 then 0 else h)

def isLeapYear (y : Nat) : Bool :=
  (y % 4 = 0 ∧ y % 100 ≠ 0) ∨ y % 400 = 0

def daysInMonth (y m : Nat) : Nat :=
  if m = 2 then (if isLeapYear y then 29 else 28)
  else if m = 4 ∨ m = 6 ∨ m = 9 ∨ m = 11 then 30
  else 31

/-- `datetime.strptime(s, "%m/%d/%y %I:%M %p")`: `none` models the
`ValueError` CPython raises when the text does not match the format (or
names a day beyond the month's length); it never yields a defaulted or
null timestamp. -/
def strptimeLog (s : String) : Option PyDatetime := do
  let r0 := s.data
  let (m, r1) ← matchOneTo12 r0
  let r2 ← matchLit '/' r1
  let (d, r3) ← matchDay31 r2
  let r4 ← matchLit '/' r3
  let (y, r5) ← matchYear2 r4
  let r6 ← matchSpaces1 r5
  let (h, r7) ← matchOneTo12 r6
  let r8 ← matchLit ':' r7
  let (mi, r9) ← matchMin59 r8
  let r10 ← matchSpaces1 r9
  let (pm, r11) ← matchAmPm r10
  match r11 with
  | [] =>
    if d ≤ daysInMonth (yearFrom2 y) m then
      some ⟨yearFrom2 y, m, d, hourFrom12 h pm, mi, 0⟩
    else none
  | _ => none

/-! ## Activity-log extractor (`ProjectSmokeTest.get_log`)

The rendered log fragment is the `div.span5 dl` element: its `dd`
children (entry bodies, most recent first) and `dt` children
(timestamps). `get_log` takes the first `dd`, reads its text and the
`href` of each of its anchors in document order, then takes the first
`dt` and parses its text with `strptimeLog`. `find_element` on an
element with no match raises `NoSuchElementException`. -/

/-- An anchor (`a`) inside a log entry; `href` is the value of
`get_attribute('href')`. -/
structure Anchor where
  href : String
deriving DecidableEq, Repr

/-- A `dd` child of the log `dl`: its rendered text and its anchors in
document order. -/
structure DDElement where
  text : String
  anchors : List Anchor
deriving DecidableEq, Repr

/-- A `dt` child of the log `dl`: the rendered timestamp text. -/
structure DTElement where
  text : String
deriving DecidableEq, Repr

/-- The `div.span5 dl` log fragment. -/
structure LogElement where
  dds : List DDElement
  dts : List DTElement
deriving DecidableEq, Repr

/-- The record `get_log` builds, with the source's field names. -/
structure LogEntry where
  log_text : String
  log_url : List String
  log_time : PyDatetime
deriving DecidableEq, Repr

/-- How reading the latest log entry can fail. -/
inductive LogError where
  | noSuchElement   -- find_element found no dd (or no dt)
  | parseError      -- strptime raised ValueError
deriving DecidableEq, Repr

/-- `ProjectSmokeTest.get_log` on a located log fragment: first `dd`,
its text, its anchors' targets in order, then the first `dt` parsed
with the fixed format. Any failure propagates as an exception; in
particular a timestamp that does not parse yields `parseError`, never
an entry with a missing time. -/
def get_log (l : LogElement) : Except LogError LogEntry :=
  match l.dds with
  | [] => .error .noSuchElement
  | dd :: _ =>
    match l.dts with
    | [] => .error .noSuchElement
    | dt :: _ =>
      match strptimeLog dt.text with
      | none => .error .parseError
      | some t => .ok ⟨dd.text, dd.anchors.map Anchor.href, t⟩

/-! ## Element-wait resolver (`SmokeTest.get_element`)

`get_element(css)` is `WebDriverWait(driver, timeout=10).until(
visibility_of_element_located((By.CSS_SELECTOR, css)))`.

Modelled from the spec: Selenium's `WebDriverWait.until` is an external
collaborator (its code is not in this repository); §4.2 gives its
contract — poll the condition at a short fixed interval until it yields
an element or `timeout_seconds` elapses, then fail with a timeout error
carrying the elapsed time. The loop below mirrors that contract with
time in milliseconds: check the condition, sleep one poll interval,
raise as soon as the elapsed time exceeds the timeout. `vis i` is the
outcome of the `i`-th visibility check; the fuel argument only bounds
the recursion and, at `waitUntil`'s fuel, is never exhausted when the
poll interval is positive. -/

/-- The polling loop: at iteration `i` (elapsed time `i * p`) evaluate
the condition, else sleep `p` and time out once `(i+1) * p` exceeds the
timeout `T`. `.error t` is the timeout failure after `t` elapsed
milliseconds. -/
def untilAux {α : Type} (vis : Nat → Option α) (T p : Nat) :
    Nat → Nat → Except Nat α
  | 0, i => .error (i * p)
  | fuel + 1, i =>
    match vis i with
    | some a => .ok a
    | none =>
      if (i + 1) * p > T then .error ((i + 1) * p)
      else untilAux vis T p fuel (i + 1)

/-- `WebDriverWait(driver, timeout=T).until(...)` with poll interval
`p`, supplied with exactly enough fuel for the timeout bound. -/
def waitUntil {α : Type} (vis : Nat → Option α) (T p : Nat) : Except Nat α :=
  untilAux vis T p (T / p + 1) 0

/-- `SmokeTest.get_element`: the wait with the source's 10-second
timeout and Selenium's default 0.5-second poll, in milliseconds. -/
def get_element {α : Type} (vis : Nat → Option α) : Except Nat α :=
  waitUntil vis 10000 500

lemma untilAux_never_visible {α : Type} (vis : Nat → Option α)
    (hvis : ∀ i, vis i = none) (T p : Nat) :
    ∀ fuel i, i * p ≤ T → ∃ t, untilAux vis T p fuel i = .error t ∧ t ≤ T + p := by
  intro fuel
  induction fuel with
  | zero =>
    intro i hi
    exact ⟨i * p, rfl, le_trans hi (Nat.le_add_right T p)⟩
  | succ n ih =>
    intro i hi
    simp only [untilAux, hvis i]
    by_cases hT : (i + 1) * p > T
    · refine ⟨(i + 1) * p, by simp [hT], ?_⟩
      calc (i + 1) * p = i * p + p := by ring
        _ ≤ T + p := Nat.add_le_add_right hi p
    · have hT' : (i + 1) * p ≤ T := Nat.le_of_not_lt hT
      obtain ⟨t, ht, hb⟩ := ih (i + 1) hT'
      exact ⟨t, by simp [hT, ht], hb⟩

lemma strExt {a b : String} (h : a.data = b.data) : a = b := by
  cases a
  cases b
  exact congrArg String.mk h

lemma append_slash_files (base name : String) :
    base ++ "/" ++ ("files" ++ "/" ++ name) = base ++ "/files/" ++ name := by
  apply strExt
  simp only [strData_append, List.append_assoc]
  rfl

/-! ## The claims -/

/-- C1: the spec requires that when a layer's setup fails after lower
layers already completed (login failing after the session was
acquired), the test body never runs but teardown of every lower layer
that succeeded still runs, releasing the session, so acquire and
release counts balance. The code diverges: under the host runner's
documented semantics, `tearDown` is only invoked when `setUp` returned
normally, so a `UserSmokeTest` execution whose `util.login` raises
after `util.launch_driver` succeeded completes exactly
`[acquire, createUser]` — the body indeed never runs, but no teardown
step runs either: one acquire, zero releases, a leaked session. -/
theorem c1_setup_failure_leaks_session :
    runTest (fun a => decide (a ≠ Action.login)) Layer.user
        = [Action.acquire, Action.createUser] ∧
    Action.body ∉ runTest (fun a => decide (a ≠ Action.login)) Layer.user ∧
    (runTest (fun a => decide (a ≠ Action.login)) Layer.user).count
        Action.acquire = 1 ∧
    (runTest (fun a => decide (a ≠ Action.login)) Layer.user).count
        Action.quit = 0 := by
  decide

/-- C2 counterexample: the claim says no already-acquired stage is ever
skipped during teardown. In a `UserSmokeTest` execution where
`util.logout` raises during `tearDown`, the session stage was acquired
(`acquire` is in the trace) yet its release (`driver.quit`) never runs:
the exception propagates out of `tearDown` before
`super().tearDown()`. -/
theorem c2_skipped_release_counterexample :
    Action.acquire ∈ runTest (fun a => decide (a ≠ Action.logout)) Layer.user ∧
    Action.quit ∉ runTest (fun a => decide (a ≠ Action.logout)) Layer.user := by
  decide

/-- C2 (amended): in an execution where every step returns normally,
the trace is setup, then the body, then teardown, and the teardown
steps release the stages in exactly the reverse of the order in which
setup acquired them (project → user → session), skipping none. (As
stated the claim also covered executions with failing steps; the
counterexample shows a failing teardown step skips the remaining
releases, and a failing setup step skips teardown entirely.) -/
theorem c2_teardown_reverse_of_setup (ok : Action → Bool) (l : Layer)
    (h : ∀ a, ok a = true) :
    runTest ok l = setupActions l ++ [Action.body] ++ tearDownActions l ∧
    (tearDownActions l).filterMap teardownStage
      = ((setupActions l).filterMap setupStageEntry).reverse := by
  constructor
  · simp [runTest, runSeq_all_ok h]
  · cases l <;> decide

/-- Witness for C2 (amended) at the project layer with an all-normal
execution. -/
theorem c2_teardown_reverse_of_setup_witness :
    runTest (fun _ => true) Layer.project
        = setupActions Layer.project ++ [Action.body]
          ++ tearDownActions Layer.project ∧
    (tearDownActions Layer.project).filterMap teardownStage
      = ((setupActions Layer.project).filterMap setupStageEntry).reverse :=
  c2_teardown_reverse_of_setup (fun _ => true) Layer.project (fun _ => rfl)

/-- C3: `goto` with a page key not in the path table fails with a
`KeyError` naming that key, and the session's navigation history is
unchanged — `driver.get` is never reached. -/
theorem c3_unknown_key_no_navigation (c : GotoCtx) (s : Session)
    (page : String) (args : List String)
    (h : page ∉ ["dashboard", "files", "file", "user-dashboard"]) :
    goto c s page args = (s, some (PyError.keyError page)) := by
  simp only [List.mem_cons, List.not_mem_nil, or_false, not_or] at h
  obtain ⟨h1, h2, h3, h4⟩ := h
  simp [goto, build_path, h1, h2, h3, h4]

/-- Witness for C3 at the key `"unknown-key"`. -/
theorem c3_unknown_key_no_navigation_witness :
    "unknown-key" ∉ (["dashboard", "files", "file", "user-dashboard"] :
        List String) ∧
    goto ⟨"http://localhost:5000/project/abc/", "http://localhost:5000"⟩
        ⟨[]⟩ "unknown-key" []
      = (⟨[]⟩, some (PyError.keyError "unknown-key")) :=
  ⟨by decide, c3_unknown_key_no_navigation _ _ _ _ (by decide)⟩

/-- C4: for a project whose address ends with a trailing slash,
`goto(session, project, "file", name)` navigates to exactly the
project's base address with `/files/` and the file name appended — the
trailing slash is stripped by `project_url[:-1]` before the
slash-joined segments, so no double slash appears. -/
theorem c4_file_address (root base name : String) (s : Session) :
    goto ⟨base ++ "/", root⟩ s "file" [name]
      = (driver_get s (base ++ "/files/" ++ name), none) := by
  have hb : build_path ⟨base ++ "/", root⟩ "file" [name]
      = .ok (base ++ "/files/" ++ name) := by
    show Except.ok (pyJoin "/" [sliceDropLast (base ++ "/"), "files", name])
        = Except.ok (base ++ "/files/" ++ name)
    rw [sliceDropLast_append_slash]
    show Except.ok (base ++ "/" ++ ("files" ++ "/" ++ name))
        = Except.ok (base ++ "/files/" ++ name)
    rw [append_slash_files]
  simp only [goto]
  rw [hb]

/-- C5: the log round trip — a fragment whose first entry has text
`"Created file report.csv"`, exactly one link to
`"/project/abc/files/report.csv"`, and timestamp text
`"03/14/24 02:15 PM"` parses to a `LogEntry` with the 24-hour instant
2024-03-14T14:15:00 and the one-element link list. -/
theorem c5_log_round_trip :
    get_log ⟨[⟨"Created file report.csv",
               [⟨"/project/abc/files/report.csv"⟩]⟩],
             [⟨"03/14/24 02:15 PM"⟩]⟩
      = .ok ⟨"Created file report.csv", ["/project/abc/files/report.csv"],
             ⟨2024, 3, 14, 14, 15, 0⟩⟩ := rfl

/-- C6: a log fragment whose timestamp text does not match the fixed
format `month/day/2-digit-year hour:minute AM|PM` makes `get_log` fail
with the parse error; a `LogEntry` with a missing timestamp is never
produced (`log_time` is a mandatory field of the result). -/
theorem c6_malformed_timestamp_is_parse_error (dd : DDElement)
    (ddr : List DDElement) (dt : DTElement) (dtr : List DTElement)
    (h : strptimeLog dt.text = none) :
    get_log ⟨dd :: ddr, dt :: dtr⟩ = .error .parseError := by
  simp [get_log, h]

/-- Witness for C6 at the malformed timestamp `"2024-03-14"`. -/
theorem c6_malformed_timestamp_is_parse_error_witness :
    strptimeLog "2024-03-14" = none ∧
    get_log ⟨[⟨"Created file report.csv", []⟩], [⟨"2024-03-14"⟩]⟩
      = .error .parseError :=
  ⟨by decide,
   c6_malformed_timestamp_is_parse_error ⟨"Created file report.csv", []⟩ []
     ⟨"2024-03-14"⟩ [] (by decide)⟩

/-- C7: whenever the latest log entry is read successfully, the
resulting `LogEntry` carries the entry's text, the target of every
embedded link in document order (possibly the empty list), and the
parsed timestamp. -/
theorem c7_log_entry_fields (dd : DDElement) (ddr : List DDElement)
    (dt : DTElement) (dtr : List DTElement) (t : PyDatetime)
    (h : strptimeLog dt.text = some t) :
    get_log ⟨dd :: ddr, dt :: dtr⟩
      = .ok ⟨dd.text, dd.anchors.map Anchor.href, t⟩ := by
  simp [get_log, h]

/-- Witness for C7 at an entry with no links. -/
theorem c7_log_entry_fields_witness :
    strptimeLog "01/02/03 12:00 AM" = some ⟨2003, 1, 2, 0, 0, 0⟩ ∧
    get_log ⟨[⟨"Removed file x.txt", []⟩], [⟨"01/02/03 12:00 AM"⟩]⟩
      = .ok ⟨"Removed file x.txt", [], ⟨2003, 1, 2, 0, 0, 0⟩⟩ :=
  ⟨by decide,
   c7_log_entry_fields ⟨"Removed file x.txt", []⟩ [] ⟨"01/02/03 12:00 AM"⟩ []
     ⟨2003, 1, 2, 0, 0, 0⟩ (by decide)⟩

/-- C8: `get_element` (the 10-second wait) on a selector that never
becomes visible fails with the timeout error within
`timeout + ε` milliseconds (`ε` = one 500 ms poll interval) — the loop
is bounded, never unbounded — and on a visible selector it returns the
matching element handle. -/
theorem c8_wait_bounded_timeout {α : Type} (vis : Nat → Option α) :
    ((∀ i, vis i = none) →
      ∃ t, get_element vis = .error t ∧ t ≤ 10000 + 500) ∧
    (∀ a, vis 0 = some a → get_element vis = .ok a) := by
  constructor
  · intro hvis
    have h := untilAux_never_visible vis hvis 10000 500 (10000 / 500 + 1) 0
      (by norm_num)
    exact h
  · intro a ha
    show untilAux vis 10000 500 (20 + 1) 0 = .ok a
    unfold untilAux
    rw [ha]

/-- Witness for C8: the never-visible condition times out within the
bound, and an immediately visible element is returned. -/
theorem c8_wait_bounded_timeout_witness :
    (∃ t, get_element (fun _ => (none : Option Unit)) = .error t ∧
          t ≤ 10000 + 500) ∧
    get_element (fun _ => (some 7 : Option Nat)) = .ok 7 :=
  ⟨(c8_wait_bounded_timeout (fun _ => none)).1 (fun _ => rfl),
   (c8_wait_bounded_timeout (fun _ => some 7)).2 7 rfl⟩

/-- C9: every layer's teardown releases the session with the full-quit
operation (`driver.quit`), as its final step, and the lightweight
`driver.close` never occurs — not in any teardown or setup sequence,
and not in the trace of any execution. -/
theorem c9_release_is_full_quit :
    (∀ l, (tearDownActions l).getLast? = some Action.quit ∧
          Action.close ∉ tearDownActions l ∧
          Action.close ∉ setupActions l) ∧
    (∀ (ok : Action → Bool) (l : Layer), Action.close ∉ runTest ok l) := by
  constructor
  · intro l
    cases l <;> decide
  · intro ok l hmem
    have hsetup : Action.close ∉ setupActions l := by cases l <;> decide
    have htd : Action.close ∉ tearDownActions l := by cases l <;> decide
    simp only [runTest] at hmem
    by_cases hb : (runSeq ok (setupActions l)).2
    · rw [if_pos hb] at hmem
      rcases List.mem_append.mp hmem with h | h
      · rcases List.mem_append.mp h with h1 | h1
        · exact hsetup (mem_runSeq h1)
        · exact absurd h1 (by decide)
      · exact htd (mem_runSeq h)
    · rw [if_neg hb] at hmem
      exact hsetup (mem_runSeq hmem)

/-- C10: `goto` evaluates only the selected page rule — for the keys
`"dashboard"`, `"files"` and `"user-dashboard"` the outcome is the
same whatever extra positional arguments are passed (they are ignored
without error), while `"file"` with no positional argument fails with
`IndexError` (from `args[0]`) before any navigation is issued. -/
theorem c10_args_only_for_file (c : GotoCtx) (s : Session)
    (args : List String) :
    goto c s "dashboard" args = goto c s "dashboard" [] ∧
    goto c s "files" args = goto c s "files" [] ∧
    goto c s "user-dashboard" args = goto c s "user-dashboard" [] ∧
    goto c s "file" [] = (s, some PyError.indexError) :=
  ⟨rfl, rfl, rfl, rfl⟩

end SmokeBase
